import Mathlib

/-!
A shallow embedding of `src/main.py`, a task-dispatch MCP server: result
builders, an action-handler registry, four action handlers (`file/create`,
`file/edit`, `file/delete`, `command/run`) and the `run_task` dispatcher.

Python dynamic values are modelled by `PyVal`; Python exceptions by
`Except PyErr`; the filesystem by an association list from path strings to
entries, where the working directory `"."` always exists as a directory.
Handlers return the new filesystem together with either a result dict or a
raised exception, so side effects that happen before an exception are kept.
-/

namespace Task

/-- A dynamic Python value: `None`, booleans, strings, lists and
string-keyed dicts (the only shapes the program manipulates). -/
inductive PyVal where
  | none
  | bool (b : Bool)
  | str (s : String)
  | list (xs : List PyVal)
  | dict (entries : List (String × PyVal))

/-- Python exceptions the embedded code can raise. -/
inductive PyErr where
  | attributeError
  | typeError
  | valueError (msg : String)
  | calledProcessError
deriving Repr, DecidableEq

/-- Python truthiness: `None` and empty strings/lists/dicts are falsy. -/
def PyVal.truthy : PyVal → Bool
  | .none => false
  | .bool b => b
  | .str s => s ≠ ""
  | .list xs => !xs.isEmpty
  | .dict es => !es.isEmpty

/-- Lookup in a dict body, defaulting to `None` for an absent key
(Python `d.get(k)`); dict literals in the program have distinct keys. -/
def dictGet (es : List (String × PyVal)) (k : String) : PyVal :=
  match es.find? (fun e => e.1 = k) with
  | some e => e.2
  | Option.none => .none

/-- Python `v.get(k)`: only dicts have a `get` attribute; any other
receiver raises `AttributeError`. -/
def PyVal.get (v : PyVal) (k : String) : Except PyErr PyVal :=
  match v with
  | .dict es => .ok (dictGet es k)
  | _ => .error .attributeError

/-- Python `v.get(k, default)`: the default applies only when the key is
absent, not when it is present and maps to `None`. -/
def PyVal.getD (v : PyVal) (k : String) (d : PyVal) : Except PyErr PyVal :=
  match v with
  | .dict es =>
    .ok (match es.find? (fun e => e.1 = k) with
         | some e => e.2
         | Option.none => d)
  | _ => .error .attributeError

/-- Python `str(v)` (`'%s' % v`), enough for the values the program
interpolates into messages. -/
def pyStr : PyVal → String
  | .none => "None"
  | .bool true => "True"
  | .bool false => "False"
  | .str s => s
  | .list _ => "[...]"
  | .dict _ => "\x7b...\x7d"

/-- Python `make_task_success`: builds the success result dict with the
task fields `id` and `action` read off the task with `.get` (so a
non-dict task raises `AttributeError`) and `success` set to `True`. -/
def make_task_success (task : PyVal) : Except PyErr PyVal := do
  let i ← task.get "id"
  let a ← task.get "action"
  return .dict [("id", i), ("action", a), ("success", .bool true)]

/-- Python `make_task_error`: like `make_task_success` but with `success`
set to `False` and a nested `error` dict carrying `type` and `message`. -/
def make_task_error (task : PyVal) (type message : String) :
    Except PyErr PyVal := do
  let i ← task.get "id"
  let a ← task.get "action"
  return .dict [("id", i), ("action", a), ("success", .bool false),
    ("error", .dict [("type", .str type), ("message", .str message)])]

/-- A filesystem entry: a regular file (its text together with the encoding
it was written under, standing for the encoded bytes) or a directory. -/
inductive Entry where
  | file (encoding : String) (data : String)
  | dir
deriving Repr, DecidableEq

/-- The filesystem: an association list from path strings to entries in
which the earliest binding for a path wins, so updates prepend. -/
abbrev FS := List (String × Entry)

/-- Look a path up; the process working directory `"."` always exists as a
directory, as it does for a running Python process. -/
def fsGet (fs : FS) (p : String) : Option Entry :=
  if p = "." then some .dir
  else match fs.find? (fun e => e.1 = p) with
       | some e => some e.2
       | Option.none => Option.none

/-- Python `Path(p).exists()`. -/
def fsExists (fs : FS) (p : String) : Bool := (fsGet fs p).isSome

/-- Python `Path(p).is_dir()`. -/
def fsIsDir (fs : FS) (p : String) : Bool := fsGet fs p = some .dir

/-- Bind `p` to `e`, shadowing any earlier binding. -/
def fsSet (fs : FS) (p : String) (e : Entry) : FS := (p, e) :: fs

/-- Python `Path(v)`: accepts a string (the empty string means the current
directory, as `Path('')` is `Path('.')`); any other value raises
`TypeError`, in particular `Path(None)` for an absent `path` field. -/
def pathOf (v : PyVal) : Except PyErr String :=
  match v with
  | .str s => .ok (if s = "" then "." else s)
  | _ => .error .typeError

/-- The text-mode default `DEFAULT_ENCODING = 'utf-8'`. -/
def DEFAULT_ENCODING : String := "utf-8"

/-- The encoding name `open` ends up using: a string is used as given,
`None` selects the platform default, anything else raises `TypeError`. -/
def encodingName : PyVal → Except PyErr String
  | .str s => .ok s
  | .none => .ok "locale-default"
  | _ => .error .typeError

/-- Python `f.write(v)` on a text file accepts only a string and raises
`TypeError` otherwise, in particular for `None` when `value` is absent. -/
def writeVal : PyVal → Except PyErr String
  | .str s => .ok s
  | _ => .error .typeError

/-- Handler `task_file_create(task)`: error result on a falsy task or an existing
path; with falsy `content` makes a directory, otherwise opens the path in
write mode (creating the empty file) and writes `content.get('value')`
under `content.get('encoding', DEFAULT_ENCODING)`. -/
def task_file_create (task : PyVal) (fs : FS) : FS × Except PyErr PyVal :=
  if !task.truthy then
    (fs, make_task_error task "argument" "`task` must be specified")
  else
    match task.get "path" with
    | .error e => (fs, .error e)
    | .ok pv =>
      match pathOf pv with
      | .error e => (fs, .error e)
      | .ok p =>
        if fsExists fs p then
          (fs, make_task_error task "argument"
            ("A file or directory at path `" ++ p ++ "` already exists"))
        else
          match task.get "content" with
          | .error e => (fs, .error e)
          | .ok content =>
            if !content.truthy then
              (fsSet fs p .dir, make_task_success task)
            else
              match content.getD "encoding" (.str DEFAULT_ENCODING) with
              | .error e => (fs, .error e)
              | .ok ev =>
                match encodingName ev with
                | .error e => (fs, .error e)
                | .ok enc =>
                  let fs1 := fsSet fs p (.file enc "")
                  match content.get "value" with
                  | .error e => (fs1, .error e)
                  | .ok vv =>
                    match writeVal vv with
                    | .error e => (fs1, .error e)
                    | .ok s => (fsSet fs1 p (.file enc s), make_task_success task)

/-- Handler `task_file_edit(task)`: error result on a falsy task, a missing path, a
directory path or falsy `content`; otherwise opens the existing file in
write mode (truncating it) and writes `content.get('value')` under
`content.get('encoding', DEFAULT_ENCODING)`. -/
def task_file_edit (task : PyVal) (fs : FS) : FS × Except PyErr PyVal :=
  if !task.truthy then
    (fs, make_task_error task "argument" "`task` must be specified")
  else
    match task.get "path" with
    | .error e => (fs, .error e)
    | .ok pv =>
      match pathOf pv with
      | .error e => (fs, .error e)
      | .ok p =>
        if !fsExists fs p then
          (fs, make_task_error task "argument"
            ("A file or directory at path `" ++ p ++ "` does not exist"))
        else if fsIsDir fs p then
          (fs, make_task_error task "argument"
            ("A directory at path `" ++ p ++ "` already exists"))
        else
          match task.get "content" with
          | .error e => (fs, .error e)
          | .ok content =>
            if !content.truthy then
              (fs, make_task_error task "argument"
                "`content` must exist for file editing")
            else
              match content.getD "encoding" (.str DEFAULT_ENCODING) with
              | .error e => (fs, .error e)
              | .ok ev =>
                match encodingName ev with
                | .error e => (fs, .error e)
                | .ok enc =>
                  let fs1 := fsSet fs p (.file enc "")
                  match content.get "value" with
                  | .error e => (fs1, .error e)
                  | .ok vv =>
                    match writeVal vv with
                    | .error e => (fs1, .error e)
                    | .ok s => (fsSet fs1 p (.file enc s), make_task_success task)

/-- Python `shutil.rmtree`: removes the directory and every path beneath it. -/
def fsRmtree (fs : FS) (p : String) : FS :=
  fs.filter (fun e => decide (e.1 ≠ p) && !(p ++ "/").isPrefixOf e.1)

/-- Python `Path(p).unlink()`: removes the file at `p`. -/
def fsUnlink (fs : FS) (p : String) : FS :=
  fs.filter (fun e => decide (e.1 ≠ p))

/-- Handler `task_file_delete(task)`: error result on a falsy task or a missing
path; removes a directory recursively with `rmtree`, a file with
`unlink`. -/
def task_file_delete (task : PyVal) (fs : FS) : FS × Except PyErr PyVal :=
  if !task.truthy then
    (fs, make_task_error task "argument" "`task` must be specified")
  else
    match task.get "path" with
    | .error e => (fs, .error e)
    | .ok pv =>
      match pathOf pv with
      | .error e => (fs, .error e)
      | .ok p =>
        if !fsExists fs p then
          (fs, make_task_error task "argument"
            ("A file or directory at path `" ++ p ++ "` does not exist"))
        else if fsIsDir fs p then
          (fsRmtree fs p, make_task_success task)
        else
          (fsUnlink fs p, make_task_success task)

/-- The list `SAFE_COMMANDS`, the command allow-list. -/
def SAFE_COMMANDS : List String := ["python", "node", "git", "uv"]

/-- Python `v in xs` for a list of string literals: the membership test is
equality, and only an equal string compares equal to a string. -/
def inStrList (v : PyVal) (xs : List String) : Bool :=
  match v with
  | .str s => xs.contains s
  | _ => false

/-- The call made to `subprocess.run`: the argument list `[cmd] + args`
and the `cwd`, `env`, `shell` and `check` keyword arguments. -/
structure RunSpec where
  argv : List PyVal
  cwd : PyVal
  env : PyVal
  shell : Bool
  check : Bool

/-- Python `[cmd] + args`: list concatenation, a `TypeError` when the
right operand is not a list. -/
def listConcat (hd : PyVal) (v : PyVal) : Except PyErr (List PyVal) :=
  match v with
  | .list xs => .ok (hd :: xs)
  | _ => .error .typeError

/-- Handler `task_command_run(task)`: error results for a falsy task, a falsy
`command` and a command outside the allow-list; otherwise calls
`subprocess.run([cmd] + args, cwd=cwd, env=env, shell=True, check=True)`,
blocking until the child exits. The child's exit status is supplied by the
`exit` oracle; `check=True` raises `CalledProcessError` when it is
non-zero. The returned `Option RunSpec` records the spawn, if any. -/
def task_command_run (exit : RunSpec → Nat) (task : PyVal) :
    Option RunSpec × Except PyErr PyVal :=
  if !task.truthy then
    (Option.none, make_task_error task "argument" "`task` must be specified")
  else
    match task.get "command" with
    | .error e => (Option.none, .error e)
    | .ok cmd =>
      if !cmd.truthy then
        (Option.none, make_task_error task "argument"
          "A `command` must be specified")
      else if !inStrList cmd SAFE_COMMANDS then
        (Option.none, make_task_error task "argument"
          ("The command `" ++ pyStr cmd ++ "` is not currently available to run"))
      else
        match task.get "path" with
        | .error e => (Option.none, .error e)
        | .ok cwd =>
          match task.get "environment" with
          | .error e => (Option.none, .error e)
          | .ok env =>
            match task.getD "arguments" (.list []) with
            | .error e => (Option.none, .error e)
            | .ok args =>
              match listConcat cmd args with
              | .error e => (Option.none, .error e)
              | .ok argv =>
                let r : RunSpec :=
                  { argv := argv, cwd := cwd, env := env,
                    shell := true, check := true }
                if exit r ≠ 0 then (some r, .error .calledProcessError)
                else (some r, make_task_success task)

/-- The process-wide state a handler can touch: the filesystem, the
exit-status oracle for spawned commands, and the log of spawns. -/
structure World where
  fs : FS
  exit : RunSpec → Nat
  runs : List RunSpec

/-- The common shape of a registered handler over the world state. -/
abbrev Handler := PyVal → World → World × Except PyErr PyVal

/-- Lift a filesystem handler to a `Handler`. -/
def liftFS (h : PyVal → FS → FS × Except PyErr PyVal) : Handler :=
  fun t w =>
    let r := h t w.fs
    ({ w with fs := r.1 }, r.2)

/-- Lift the command handler to a `Handler`, logging any spawn. -/
def liftCmd (h : (RunSpec → Nat) → PyVal → Option RunSpec × Except PyErr PyVal) :
    Handler :=
  fun t w =>
    let r := h w.exit t
    ({ w with runs := w.runs ++ r.1.toList }, r.2)

/-- The registry `TASK_ACTION_HANDLERS` is a dict from action strings to handlers,
built by `register_task_action_handler`; modelled as an association list
to which registration appends. -/
abbrev Registry := List (String × Handler)

/-- Registration `register_task_action_handler(action, handler)`: raises `ValueError`
when the action is already bound, otherwise adds the binding. -/
def register_task_action_handler (reg : Registry) (action : String)
    (handler : Handler) : Except PyErr Registry :=
  if reg.any (fun e => e.1 = action) then
    .error (.valueError
      ("A handler for `" ++ action ++ "` already exists. Actions must be unique."))
  else
    .ok (reg ++ [(action, handler)])

/-- Lookup `get_task_action_handler(action)`: raises `ValueError` for a falsy
action and for an unbound action (a truthy non-string key is simply not in
the dict, except that unhashable lists and dicts raise `TypeError`). -/
def get_task_action_handler (reg : Registry) (action : PyVal) :
    Except PyErr Handler :=
  if !action.truthy then .error (.valueError "`handler` must be specified")
  else
    match action with
    | .list _ => .error .typeError
    | .dict _ => .error .typeError
    | a =>
      match a with
      | .str s =>
        match reg.find? (fun e => e.1 = s) with
        | some e => .ok e.2
        | Option.none =>
          .error (.valueError ("A handler for `" ++ s ++ "` does not exist."))
      | _ =>
        .error (.valueError ("A handler for `" ++ pyStr a ++ "` does not exist."))

/-- The `TASKS` table bound at module load. -/
def TASKS : List (String × Handler) :=
  [("file/create", liftFS task_file_create),
   ("file/edit", liftFS task_file_edit),
   ("file/delete", liftFS task_file_delete),
   ("command/run", liftCmd task_command_run)]

/-- The module-load loop `for action, handler in TASKS: register...`. -/
def TASK_ACTION_HANDLERS : Except PyErr Registry :=
  TASKS.foldlM (fun reg e => register_task_action_handler reg e.1 e.2) []

/-- Dispatcher `run_task(task)`: raises `ValueError` for a falsy task or a falsy
`id`, resolves the handler (which raises for a falsy or unbound action)
and invokes it; the JSON serialization of the response is left to the
host. -/
def run_task (reg : Registry) (task : PyVal) (w : World) :
    World × Except PyErr PyVal :=
  if !task.truthy then
    (w, .error (.valueError "`task` must be specified"))
  else
    match task.get "id" with
    | .error e => (w, .error e)
    | .ok i =>
      if !i.truthy then
        (w, .error (.valueError "`task` must be have a `id` specified"))
      else
        match task.get "action" with
        | .error e => (w, .error e)
        | .ok a =>
          match get_task_action_handler reg a with
          | .error e => (w, .error e)
          | .ok h => h task w

/-- The value `content.get('encoding', DEFAULT_ENCODING)` produces for a
dict content body `cd`. -/
def contentEncodingVal (cd : List (String × PyVal)) : PyVal :=
  match cd.find? (fun e => e.1 = "encoding") with
  | some e => e.2
  | Option.none => .str DEFAULT_ENCODING

/-- A single plain shell word: non-empty, made only of characters the
shell does not treat specially (every allow-listed command name is one). -/
def isPlainWord (s : String) : Bool :=
  s ≠ "" &&
    s.toList.all (fun c => c.isAlphanum || c = '/' || c = '.' || c = '-' || c = '_')

/-- POSIX semantics of the spawn `subprocess.run` makes. With
`shell=True` the process executed is `/bin/sh -c` whose command string is
the FIRST argv entry; the remaining entries become the shell's positional
parameters, not arguments of the command. For a command string that is a
single plain word the shell therefore executes that word with no further
arguments. Returns the argv the command itself receives, or `none`
outside this fragment. -/
def runChildArgv (r : RunSpec) : Option (List String) :=
  if r.shell then
    match r.argv with
    | .str c :: _ => if isPlainWord c then some [c] else Option.none
    | _ => Option.none
  else
    r.argv.mapM (fun v => match v with
      | .str s => some s
      | _ => Option.none)

/-- Modelled from the spec, for comparison: the invocation §4.6 describes,
in which the allow-listed command receives the supplied `arguments`, in
order, as its argument vector. -/
def specChildArgv (cmd : String) (args : List String) : List String :=
  cmd :: args

/-- An allow-listed `command/run` task carrying one argument. -/
def c1Task : PyVal :=
  .dict [("id", .str "1"), ("action", .str "command/run"),
    ("command", .str "git"), ("arguments", .list [.str "status"])]

/-- The spawn `task_command_run` performs for `c1Task`. -/
def c1Run : RunSpec :=
  { argv := [.str "git", .str "status"], cwd := .none, env := .none,
    shell := true, check := true }

/-- A `file/create` task at a fresh path whose `content` is present but is
the empty dict, hence falsy. -/
def c5Task : PyVal :=
  .dict [("id", .str "1"), ("action", .str "file/create"),
    ("path", .str "p"), ("content", .dict [])]

/-- A `file/edit` task on an existing file whose `content` is present but
is the empty dict, hence falsy. -/
def c6Task : PyVal :=
  .dict [("id", .str "2"), ("action", .str "file/edit"),
    ("path", .str "f"), ("content", .dict [])]

/-- The path string `Path(s)` denotes: the empty string means the current
directory. -/
def pathKey (s : String) : String := if s = "" then "." else s

/-- Computation of `make_task_success` on a dict task. -/
theorem make_task_success_dict (d : List (String × PyVal)) :
    make_task_success (.dict d) =
      .ok (.dict [("id", dictGet d "id"), ("action", dictGet d "action"),
        ("success", .bool true)]) := rfl

/-- Computation of `make_task_error` on a dict task. -/
theorem make_task_error_dict (d : List (String × PyVal)) (ty m : String) :
    make_task_error (.dict d) ty m =
      .ok (.dict [("id", dictGet d "id"), ("action", dictGet d "action"),
        ("success", .bool false),
        ("error", .dict [("type", .str ty), ("message", .str m)])]) := rfl

/-- A success result built from a dict task carries the task's `id` and
`action`. -/
theorem success_result_fields (d : List (String × PyVal)) (r : PyVal)
    (h : make_task_success (.dict d) = .ok r) :
    r.get "id" = .ok (dictGet d "id") ∧
    r.get "action" = .ok (dictGet d "action") := by
  rw [make_task_success_dict] at h
  cases h
  exact ⟨rfl, rfl⟩

/-- An error result built from a dict task carries the task's `id` and
`action`. -/
theorem error_result_fields (d : List (String × PyVal)) (ty m : String)
    (r : PyVal) (h : make_task_error (.dict d) ty m = .ok r) :
    r.get "id" = .ok (dictGet d "id") ∧
    r.get "action" = .ok (dictGet d "action") := by
  rw [make_task_error_dict] at h
  cases h
  exact ⟨rfl, rfl⟩

/-- C8 (amended): `make_task_success` and `make_task_error` copy `id` and
`action` verbatim from every dict task, the empty dict included, whose
missing fields come out as `None`; but on an absent (`None`) task they
raise `AttributeError` instead of producing a Result. -/
theorem C8_builders_copy_fields (d : List (String × PyVal)) (ty m : String) :
    make_task_success (.dict d) =
      .ok (.dict [("id", dictGet d "id"), ("action", dictGet d "action"),
        ("success", .bool true)]) ∧
    make_task_error (.dict d) ty m =
      .ok (.dict [("id", dictGet d "id"), ("action", dictGet d "action"),
        ("success", .bool false),
        ("error", .dict [("type", .str ty), ("message", .str m)])]) ∧
    make_task_success .none = .error .attributeError ∧
    make_task_error .none ty m = .error .attributeError :=
  ⟨rfl, rfl, rfl, rfl⟩

/-- C8 counterexample: on an absent task (`None`) both result builders
raise `AttributeError` (Python `None.get`), so no Result is produced,
contrary to the claim that one always is. -/
theorem C8_counterexample :
    make_task_success .none = .error .attributeError ∧
    make_task_error .none "argument" "x" = .error .attributeError :=
  ⟨rfl, rfl⟩

/-- C2: whenever any of the four handlers returns a Result on a dict
task (rather than raising), the Result's `id` and `action` fields equal
the task's `id` and `action` fields, on success and on error alike. -/
theorem C2_result_correlation (d : List (String × PyVal)) (fs : FS)
    (ex : RunSpec → Nat) (r : PyVal)
    (h : (task_file_create (.dict d) fs).2 = .ok r ∨
         (task_file_edit (.dict d) fs).2 = .ok r ∨
         (task_file_delete (.dict d) fs).2 = .ok r ∨
         (task_command_run ex (.dict d)).2 = .ok r) :
    r.get "id" = .ok (dictGet d "id") ∧
    r.get "action" = .ok (dictGet d "action") := by
  rcases h with h | h | h | h
  · unfold task_file_create at h
    repeat' split at h
    all_goals
      first
        | exact success_result_fields d r h
        | exact error_result_fields d _ _ r h
        | cases h
  · unfold task_file_edit at h
    repeat' split at h
    all_goals
      first
        | exact success_result_fields d r h
        | exact error_result_fields d _ _ r h
        | cases h
  · unfold task_file_delete at h
    repeat' split at h
    all_goals
      first
        | exact success_result_fields d r h
        | exact error_result_fields d _ _ r h
        | cases h
  · simp only [task_command_run] at h
    repeat' split at h
    all_goals
      first
        | exact success_result_fields d r h
        | exact error_result_fields d _ _ r h
        | cases h

/-- C2 witness: a concrete `file/delete` of an existing file; the Result
carries the task's `id` and `action`. -/
theorem C2_result_correlation_witness :
    (PyVal.dict [("id", .str "9"), ("action", .str "file/delete"),
      ("success", .bool true)]).get "id" =
        .ok (dictGet [("id", .str "9"), ("action", .str "file/delete"),
          ("path", .str "q")] "id") ∧
    (PyVal.dict [("id", .str "9"), ("action", .str "file/delete"),
      ("success", .bool true)]).get "action" =
        .ok (dictGet [("id", .str "9"), ("action", .str "file/delete"),
          ("path", .str "q")] "action") :=
  C2_result_correlation
    [("id", .str "9"), ("action", .str "file/delete"), ("path", .str "q")]
    [("q", .file "utf-8" "x")] (fun _ => 0)
    (.dict [("id", .str "9"), ("action", .str "file/delete"),
      ("success", .bool true)])
    (Or.inr (Or.inr (Or.inl rfl)))

/-- C3: the dispatcher-level contract violations — absent task, task
without an `id`, empty or unregistered `action`, duplicate registration —
each raise an exception (a `PyErr`), rather than returning a structured
error Result. -/
theorem C3_dispatcher_raises (reg : Registry) (w : World)
    (d : List (String × PyVal)) (a s : String) (hd : Handler) :
    (∃ e, (run_task reg .none w).2 = .error e) ∧
    ((dictGet d "id").truthy = false →
      ∃ e, (run_task reg (.dict d) w).2 = .error e) ∧
    ((dictGet d "action").truthy = false →
      ∃ e, (run_task reg (.dict d) w).2 = .error e) ∧
    (dictGet d "action" = .str s → reg.find? (fun e => e.1 = s) = Option.none →
      ∃ e, (run_task reg (.dict d) w).2 = .error e) ∧
    (reg.any (fun e => e.1 = a) = true →
      ∃ e, register_task_action_handler reg a hd = .error e) := by
  refine ⟨⟨_, rfl⟩, ?_, ?_, ?_, ?_⟩
  · intro hid
    unfold run_task
    by_cases ht : (PyVal.dict d).truthy
    · simp only [ht, Bool.not_true, Bool.false_eq_true, if_false, PyVal.get,
        hid, Bool.not_false, if_true]
      exact ⟨_, rfl⟩
    · simp only [Bool.not_eq_true] at ht
      simp only [ht, Bool.not_false, if_true]
      exact ⟨_, rfl⟩
  · intro hact
    unfold run_task
    by_cases ht : (PyVal.dict d).truthy
    · simp only [ht, Bool.not_true, Bool.false_eq_true, if_false, PyVal.get]
      by_cases hid : (dictGet d "id").truthy
      · simp only [hid, Bool.not_true, Bool.false_eq_true, if_false]
        unfold get_task_action_handler
        simp only [hact, Bool.not_false, if_true]
        exact ⟨_, rfl⟩
      · simp only [Bool.not_eq_true] at hid
        simp only [hid, Bool.not_false, if_true]
        exact ⟨_, rfl⟩
    · simp only [Bool.not_eq_true] at ht
      simp only [ht, Bool.not_false, if_true]
      exact ⟨_, rfl⟩
  · intro hact hfind
    unfold run_task
    by_cases ht : (PyVal.dict d).truthy
    · simp only [ht, Bool.not_true, Bool.false_eq_true, if_false, PyVal.get]
      by_cases hid : (dictGet d "id").truthy
      · simp only [hid, Bool.not_true, Bool.false_eq_true, if_false]
        unfold get_task_action_handler
        rw [hact]
        by_cases hs : (PyVal.str s).truthy
        · simp only [hs, Bool.not_true, Bool.false_eq_true, if_false, hfind]
          exact ⟨_, rfl⟩
        · simp only [Bool.not_eq_true] at hs
          simp only [hs, Bool.not_false, if_true]
          exact ⟨_, rfl⟩
      · simp only [Bool.not_eq_true] at hid
        simp only [hid, Bool.not_false, if_true]
        exact ⟨_, rfl⟩
    · simp only [Bool.not_eq_true] at ht
      simp only [ht, Bool.not_false, if_true]
      exact ⟨_, rfl⟩
  · intro hdup
    unfold register_task_action_handler
    simp only [hdup, if_true]
    exact ⟨_, rfl⟩

/-- C3 witness: concrete dispatcher calls — an absent task, a task with an
empty `id`, a task with no `action`, a task with an unregistered `action`,
and a duplicate registration — each raise. -/
theorem C3_dispatcher_raises_witness :
    (∃ e, (run_task [] .none ⟨[], fun _ => 0, []⟩).2 = .error e) ∧
    (∃ e, (run_task [] (.dict [("id", .str "")]) ⟨[], fun _ => 0, []⟩).2 =
      .error e) ∧
    (∃ e, (run_task [] (.dict [("id", .str "1")]) ⟨[], fun _ => 0, []⟩).2 =
      .error e) ∧
    (∃ e, (run_task [] (.dict [("id", .str "1"), ("action", .str "nope")])
      ⟨[], fun _ => 0, []⟩).2 = .error e) ∧
    (∃ e, register_task_action_handler [("x", liftFS task_file_create)] "x"
      (liftFS task_file_edit) = .error e) :=
  ⟨(C3_dispatcher_raises [] ⟨[], fun _ => 0, []⟩ [("id", .str "")] "x" "nope"
      (liftFS task_file_edit)).1,
   (C3_dispatcher_raises [] ⟨[], fun _ => 0, []⟩ [("id", .str "")] "x" "nope"
      (liftFS task_file_edit)).2.1 rfl,
   (C3_dispatcher_raises [] ⟨[], fun _ => 0, []⟩ [("id", .str "1")] "x" "nope"
      (liftFS task_file_edit)).2.2.1 rfl,
   (C3_dispatcher_raises [] ⟨[], fun _ => 0, []⟩
      [("id", .str "1"), ("action", .str "nope")] "x" "nope"
      (liftFS task_file_edit)).2.2.2.1 rfl rfl,
   (C3_dispatcher_raises [("x", liftFS task_file_create)]
      ⟨[], fun _ => 0, []⟩ [("id", .str "")] "x" "nope"
      (liftFS task_file_edit)).2.2.2.2 rfl⟩

/-- A string outside the allow-list fails the Python membership test. -/
theorem inStrList_safe_eq_false (s : String) (h : s ∉ SAFE_COMMANDS) :
    inStrList (.str s) SAFE_COMMANDS = false := by
  simp only [SAFE_COMMANDS, List.mem_cons, List.not_mem_nil, or_false] at h
  push_neg at h
  obtain ⟨h1, h2, h3, h4⟩ := h
  have e1 : (s == "python") = false := beq_eq_false_iff_ne.mpr h1
  have e2 : (s == "node") = false := beq_eq_false_iff_ne.mpr h2
  have e3 : (s == "git") = false := beq_eq_false_iff_ne.mpr h3
  have e4 : (s == "uv") = false := beq_eq_false_iff_ne.mpr h4
  simp [inStrList, SAFE_COMMANDS, List.contains, List.elem, e1, e2, e3, e4]

/-- The allow-list membership test is exactly case-sensitive string
equality against the four listed names. -/
theorem inStrList_safe_iff (s : String) :
    inStrList (.str s) SAFE_COMMANDS = true ↔
      s ∈ (["python", "node", "git", "uv"] : List String) := by
  constructor
  · intro h
    by_contra hmem
    have hf := inStrList_safe_eq_false s (by simpa [SAFE_COMMANDS] using hmem)
    rw [hf] at h
    cases h
  · intro h
    simp only [List.mem_cons, List.not_mem_nil, or_false] at h
    rcases h with h | h | h | h <;> subst h <;> rfl

/-- A present string command outside the allow-list yields an argument
error Result whose message contains the command. -/
theorem command_rejected (ex : RunSpec → Nat) (d : List (String × PyVal))
    (s : String) (hc : dictGet d "command" = .str s)
    (hm : s ∉ SAFE_COMMANDS) :
    ∃ m, (task_command_run ex (.dict d)).2 =
        make_task_error (.dict d) "argument" m ∧
      ∃ a b, m = a ++ s ++ b := by
  have hne : d.isEmpty = false := by
    cases d with
    | nil => simp [dictGet] at hc
    | cons x xs => rfl
  have htr : (PyVal.dict d).truthy = true := by simp [PyVal.truthy, hne]
  unfold task_command_run
  simp only [htr, Bool.not_true, Bool.false_eq_true, if_false, PyVal.get, hc]
  by_cases hs : s = ""
  · subst hs
    exact ⟨_, rfl, "", _, rfl⟩
  · have hst : (PyVal.str s).truthy = true := by simp [PyVal.truthy, hs]
    have hcf : inStrList (.str s) SAFE_COMMANDS = false :=
      inStrList_safe_eq_false s hm
    simp only [hst, Bool.not_true, Bool.false_eq_true, if_false, hcf,
      Bool.not_false, if_true]
    exact ⟨_, rfl, "The command `", _, rfl⟩

/-- C7: `command/run` returns an argument error Result when `command` is
absent, and when `command` is a string outside the allow-list it returns
an argument error Result whose message contains (names) the command. -/
theorem C7_command_run_errors (ex : RunSpec → Nat)
    (d : List (String × PyVal)) (s : String) :
    (dictGet d "command" = .none →
      ∃ m, (task_command_run ex (.dict d)).2 =
        make_task_error (.dict d) "argument" m) ∧
    (dictGet d "command" = .str s → s ∉ SAFE_COMMANDS →
      ∃ m, (task_command_run ex (.dict d)).2 =
          make_task_error (.dict d) "argument" m ∧
        ∃ a b, m = a ++ s ++ b) := by
  constructor
  · intro hc
    by_cases ht : d.isEmpty = true
    · have htr : (PyVal.dict d).truthy = false := by simp [PyVal.truthy, ht]
      unfold task_command_run
      simp only [htr, Bool.not_false, if_true]
      exact ⟨_, rfl⟩
    · rw [Bool.not_eq_true] at ht
      have htr : (PyVal.dict d).truthy = true := by simp [PyVal.truthy, ht]
      unfold task_command_run
      simp only [htr, Bool.not_true, Bool.false_eq_true, if_false,
        PyVal.get, hc]
      exact ⟨_, rfl⟩
  · exact fun hc hm => command_rejected ex d s hc hm

/-- C7 witness: the task `id "3", action "command/run", command "curl"`
yields an argument error Result whose message contains `curl`. -/
theorem C7_command_run_errors_witness :
    ∃ m, (task_command_run (fun _ => 0)
        (.dict [("id", .str "3"), ("action", .str "command/run"),
          ("command", .str "curl")])).2 =
      make_task_error
        (.dict [("id", .str "3"), ("action", .str "command/run"),
          ("command", .str "curl")]) "argument" m ∧
      ∃ a b, m = a ++ "curl" ++ b :=
  (C7_command_run_errors (fun _ => 0)
    [("id", .str "3"), ("action", .str "command/run"),
      ("command", .str "curl")] "curl").2 rfl (by decide)

/-- C10: the allow-list is exactly `python`, `node`, `git`, `uv`; the
membership test is case-sensitive string equality; and any other string
command yields an argument error Result. -/
theorem C10_allowlist_exact (ex : RunSpec → Nat)
    (d : List (String × PyVal)) (s : String) :
    SAFE_COMMANDS = ["python", "node", "git", "uv"] ∧
    (inStrList (.str s) SAFE_COMMANDS = true ↔
      s ∈ (["python", "node", "git", "uv"] : List String)) ∧
    (dictGet d "command" = .str s → s ∉ SAFE_COMMANDS →
      ∃ m, (task_command_run ex (.dict d)).2 =
        make_task_error (.dict d) "argument" m) := by
  refine ⟨rfl, inStrList_safe_iff s, fun hc hmem => ?_⟩
  obtain ⟨m, hr, -⟩ := command_rejected ex d s hc hmem
  exact ⟨m, hr⟩

/-- C10 witness: `Python` (different case) and `/usr/bin/python` (a path)
both yield argument error Results. -/
theorem C10_allowlist_exact_witness :
    (∃ m, (task_command_run (fun _ => 0)
        (.dict [("id", .str "1"), ("command", .str "Python")])).2 =
      make_task_error (.dict [("id", .str "1"), ("command", .str "Python")])
        "argument" m) ∧
    (∃ m, (task_command_run (fun _ => 0)
        (.dict [("id", .str "1"),
          ("command", .str "/usr/bin/python")])).2 =
      make_task_error
        (.dict [("id", .str "1"), ("command", .str "/usr/bin/python")])
        "argument" m) :=
  ⟨(C10_allowlist_exact (fun _ => 0)
      [("id", .str "1"), ("command", .str "Python")] "Python").2.2
      rfl (by decide),
   (C10_allowlist_exact (fun _ => 0)
      [("id", .str "1"), ("command", .str "/usr/bin/python")]
      "/usr/bin/python").2.2 rfl (by decide)⟩

/-- C1 (code-bug evidence): on the allow-listed task with command `git`
and arguments `["status"]` the handler spawns `subprocess.run` with
`shell=True` and argument list `[git, status]`; under POSIX `sh -c`
semantics the extra entries become shell positional parameters, so the
command executed is `git` with an empty argument vector — not, as the
specification describes, `git` with argument vector `["status"]`. -/
theorem C1_shell_drops_arguments :
    (task_command_run (fun _ => 0) c1Task).1 = some c1Run ∧
    (task_command_run (fun _ => 0) c1Task).2 = make_task_success c1Task ∧
    c1Run.shell = true ∧
    runChildArgv c1Run = some ["git"] ∧
    specChildArgv "git" ["status"] = ["git", "status"] ∧
    runChildArgv c1Run ≠ some (specChildArgv "git" ["status"]) :=
  ⟨rfl, rfl, rfl, by decide, rfl, by decide⟩

/-- Inversion: `pathOf` succeeds exactly on strings, producing the path
key. -/
theorem pathOf_ok (v : PyVal) (p : String) (h : pathOf v = .ok p) :
    ∃ s, v = .str s ∧ p = pathKey s := by
  cases v with
  | str s =>
    refine ⟨s, rfl, ?_⟩
    simp only [pathOf, pathKey, Except.ok.injEq] at h
    exact h.symm
  | none => simp [pathOf] at h
  | bool b => simp [pathOf] at h
  | list xs => simp [pathOf] at h
  | dict es => simp [pathOf] at h

/-- Computation of `pathOf` on a non-empty path string. -/
theorem pathOf_str_ne (s : String) (hs : s ≠ "") :
    pathOf (.str s) = .ok s := by
  simp [pathOf, hs]

/-- The working directory always exists. -/
theorem fsExists_dot (fs : FS) : fsExists fs "." = true := by
  simp [fsExists, fsGet]

/-- Reading back a fresh binding. -/
theorem fsGet_fsSet (fs : FS) (p : String) (e : Entry) (hp : p ≠ ".") :
    fsGet (fsSet fs p e) p = some e := by
  simp [fsGet, fsSet, hp, List.find?]

/-- A dict with a bound key is non-empty, hence truthy. -/
theorem dict_truthy_of_get (d : List (String × PyVal)) (k : String)
    (s : String) (h : dictGet d k = .str s) :
    (PyVal.dict d).truthy = true := by
  cases d with
  | nil => simp [dictGet] at h
  | cons x xs => rfl

/-- C4: `file/create` requires a non-empty `path` — a success Result can
only arise from a task whose `path` is a non-empty string — and on a task
whose `path` names an existing entry it returns an argument error Result
and leaves the filesystem unchanged. -/
theorem C4_create_never_overwrites (d : List (String × PyVal)) (fs : FS)
    (s : String) (r : PyVal) :
    (dictGet d "path" = .str s → fsExists fs (pathKey s) = true →
      task_file_create (.dict d) fs =
        (fs, make_task_error (.dict d) "argument"
          ("A file or directory at path `" ++ pathKey s ++
            "` already exists"))) ∧
    ((task_file_create (.dict d) fs).2 = .ok r →
      r.get "success" = .ok (.bool true) →
      ∃ sp, dictGet d "path" = .str sp ∧ sp ≠ "") := by
  constructor
  · intro hc hex
    have htr := dict_truthy_of_get d "path" s hc
    unfold task_file_create
    simp only [htr, Bool.not_true, Bool.false_eq_true, if_false,
      PyVal.get, hc, pathOf]
    simp only [pathKey] at hex
    simp only [hex, if_true, pathKey]
  · intro h hsucc
    unfold task_file_create at h
    split at h
    · exfalso
      rw [make_task_error_dict] at h
      simp only [Except.ok.injEq] at h
      subst h
      simp [PyVal.get, dictGet] at hsucc
    · simp only [PyVal.get] at h
      split at h
      · exact absurd h (by simp)
      · rename_i p heq
        split at h
        · exfalso
          rw [make_task_error_dict] at h
          simp only [Except.ok.injEq] at h
          subst h
          simp [PyVal.get, dictGet] at hsucc
        · rename_i hex
          obtain ⟨sp, hv, hp⟩ := pathOf_ok _ _ heq
          have hsp : sp ≠ "" := by
            intro h0
            subst h0
            simp only [pathKey, if_pos rfl] at hp
            subst hp
            exact hex (fsExists_dot fs)
          exact ⟨sp, hv, hsp⟩

/-- C4 witness: creating at the existing path `p` returns the argument
error and leaves the filesystem unchanged. -/
theorem C4_create_never_overwrites_witness :
    task_file_create
        (.dict [("id", .str "7"), ("action", .str "file/create"),
          ("path", .str "p")]) [("p", .dir)] =
      ([("p", .dir)], make_task_error
        (.dict [("id", .str "7"), ("action", .str "file/create"),
          ("path", .str "p")]) "argument"
        ("A file or directory at path `" ++ pathKey "p" ++
          "` already exists")) :=
  (C4_create_never_overwrites
    [("id", .str "7"), ("action", .str "file/create"), ("path", .str "p")]
    [("p", .dir)] "p" .none).1 rfl (by decide)

/-- C5 counterexample: at the fresh path `p` with `content` present but
equal to the empty dict (falsy), `file/create` creates a directory, not a
file with the content bytes. -/
theorem C5_counterexample :
    task_file_create c5Task [] =
      ([("p", Entry.dir)],
        .ok (.dict [("id", .str "1"), ("action", .str "file/create"),
          ("success", .bool true)])) ∧
    Entry.dir ≠ Entry.file DEFAULT_ENCODING "" :=
  ⟨rfl, by decide⟩

/-- C5 (amended): at a fresh path, falsy `content` (absent or the empty
dict) creates an empty directory; a truthy dict `content` carrying a
string `value` creates a file holding `value` under
`content.get('encoding', 'utf-8')`, returning success. -/
theorem C5_create_fresh (d cd : List (String × PyVal)) (fs : FS)
    (s v es : String)
    (hc : dictGet d "path" = .str s) (hs : s ≠ "")
    (hfresh : fsExists fs s = false) :
    ((dictGet d "content").truthy = false →
      task_file_create (.dict d) fs =
        (fsSet fs s .dir, make_task_success (.dict d))) ∧
    (dictGet d "content" = .dict cd → cd ≠ [] →
     dictGet cd "value" = .str v → contentEncodingVal cd = .str es →
      fsGet (task_file_create (.dict d) fs).1 s = some (.file es v) ∧
      (task_file_create (.dict d) fs).2 = make_task_success (.dict d)) := by
  have htr := dict_truthy_of_get d "path" s hc
  have hdot : s ≠ "." := by
    intro h0
    subst h0
    rw [fsExists_dot fs] at hfresh
    cases hfresh
  constructor
  · intro hct
    unfold task_file_create
    simp only [htr, Bool.not_true, Bool.false_eq_true, if_false, PyVal.get,
      hc, pathOf_str_ne s hs, hfresh, hct, Bool.not_false, if_true]
  · intro hcd hne hv he
    have hctr : (PyVal.dict cd).truthy = true := by
      simp [PyVal.truthy, hne]
    have hgetD : (PyVal.dict cd).getD "encoding" (.str DEFAULT_ENCODING) =
        .ok (contentEncodingVal cd) := rfl
    have hcomp : task_file_create (.dict d) fs =
        (fsSet (fsSet fs s (.file es "")) s (.file es v),
          make_task_success (.dict d)) := by
      unfold task_file_create
      simp only [htr, Bool.not_true, Bool.false_eq_true, if_false,
        PyVal.get, hc, pathOf_str_ne s hs, hfresh, hcd, hctr, hgetD, he,
        encodingName, hv, writeVal]
    rw [hcomp]
    exact ⟨fsGet_fsSet _ s _ hdot, rfl⟩

/-- C5 witness: creating `d` with no content makes a directory; creating
`p` with content value `hi` (no encoding given) makes a file holding `hi`
under the default `utf-8`. -/
theorem C5_create_fresh_witness :
    (task_file_create
        (.dict [("id", .str "1"), ("action", .str "file/create"),
          ("path", .str "d")]) [] =
      (fsSet [] "d" .dir,
        make_task_success
          (.dict [("id", .str "1"), ("action", .str "file/create"),
            ("path", .str "d")]))) ∧
    (fsGet (task_file_create
        (.dict [("id", .str "1"), ("action", .str "file/create"),
          ("path", .str "p"),
          ("content", .dict [("value", .str "hi")])]) []).1 "p" =
      some (.file "utf-8" "hi") ∧
     (task_file_create
        (.dict [("id", .str "1"), ("action", .str "file/create"),
          ("path", .str "p"),
          ("content", .dict [("value", .str "hi")])]) []).2 =
      make_task_success
        (.dict [("id", .str "1"), ("action", .str "file/create"),
          ("path", .str "p"),
          ("content", .dict [("value", .str "hi")])])) :=
  ⟨(C5_create_fresh
      [("id", .str "1"), ("action", .str "file/create"), ("path", .str "d")]
      [] [] "d" "" "utf-8" rfl (by decide) rfl).1 rfl,
   (C5_create_fresh
      [("id", .str "1"), ("action", .str "file/create"), ("path", .str "p"),
        ("content", .dict [("value", .str "hi")])]
      [("value", .str "hi")] [] "p" "hi" "utf-8" rfl (by decide) rfl).2
      rfl (List.cons_ne_nil _ _) rfl rfl⟩

/-- C6 counterexample: editing the existing file `f` with `content`
present but equal to the empty dict (falsy) returns the argument error
`content must exist for file editing` instead of writing the value and
returning success. -/
theorem C6_counterexample :
    task_file_edit c6Task [("f", Entry.file "utf-8" "old")] =
      ([("f", Entry.file "utf-8" "old")],
        .ok (.dict [("id", .str "2"), ("action", .str "file/edit"),
          ("success", .bool false),
          ("error", .dict [("type", .str "argument"),
            ("message",
              .str "`content` must exist for file editing")])])) := rfl

/-- C6 (amended): `file/edit` returns an argument error Result when the
path does not exist, when it is a directory, or when `content` is falsy
(absent or empty); with an existing file and a truthy dict `content`
carrying a string `value` it replaces the file content entirely and
returns success. -/
theorem C6_edit_semantics (d cd : List (String × PyVal)) (fs : FS)
    (s v es fe fb : String)
    (hc : dictGet d "path" = .str s) (hs : s ≠ "") :
    (fsExists fs s = false →
      task_file_edit (.dict d) fs =
        (fs, make_task_error (.dict d) "argument"
          ("A file or directory at path `" ++ s ++ "` does not exist"))) ∧
    (fsIsDir fs s = true →
      task_file_edit (.dict d) fs =
        (fs, make_task_error (.dict d) "argument"
          ("A directory at path `" ++ s ++ "` already exists"))) ∧
    (fsGet fs s = some (.file fe fb) →
      (dictGet d "content").truthy = false →
      task_file_edit (.dict d) fs =
        (fs, make_task_error (.dict d) "argument"
          "`content` must exist for file editing")) ∧
    (fsGet fs s = some (.file fe fb) →
      dictGet d "content" = .dict cd → cd ≠ [] →
      dictGet cd "value" = .str v → contentEncodingVal cd = .str es →
      fsGet (task_file_edit (.dict d) fs).1 s = some (.file es v) ∧
      (task_file_edit (.dict d) fs).2 = make_task_success (.dict d)) := by
  have htr := dict_truthy_of_get d "path" s hc
  refine ⟨?_, ?_, ?_, ?_⟩
  · intro hne
    unfold task_file_edit
    simp only [htr, Bool.not_true, Bool.false_eq_true, if_false, PyVal.get,
      hc, pathOf_str_ne s hs, hne, Bool.not_false, if_true]
  · intro hdir
    have hget : fsGet fs s = some .dir := by
      simpa [fsIsDir] using hdir
    have hex : fsExists fs s = true := by
      simp [fsExists, hget]
    unfold task_file_edit
    simp only [htr, Bool.not_true, Bool.false_eq_true, if_false, PyVal.get,
      hc, pathOf_str_ne s hs, hex, Bool.not_true, Bool.false_eq_true,
      if_false, hdir, if_true]
  · intro hfile hct
    have hex : fsExists fs s = true := by
      simp [fsExists, hfile]
    have hnd : fsIsDir fs s = false := by
      simp [fsIsDir, hfile]
    unfold task_file_edit
    simp only [htr, Bool.not_true, Bool.false_eq_true, if_false, PyVal.get,
      hc, pathOf_str_ne s hs, hex, hnd, hct, Bool.not_false, if_true]
  · intro hfile hcd hne hv he
    have hex : fsExists fs s = true := by
      simp [fsExists, hfile]
    have hnd : fsIsDir fs s = false := by
      simp [fsIsDir, hfile]
    have hdot : s ≠ "." := by
      intro h0
      subst h0
      simp [fsGet] at hfile
    have hctr : (PyVal.dict cd).truthy = true := by
      simp [PyVal.truthy, hne]
    have hgetD : (PyVal.dict cd).getD "encoding" (.str DEFAULT_ENCODING) =
        .ok (contentEncodingVal cd) := rfl
    have hcomp : task_file_edit (.dict d) fs =
        (fsSet (fsSet fs s (.file es "")) s (.file es v),
          make_task_success (.dict d)) := by
      unfold task_file_edit
      simp only [htr, Bool.not_true, Bool.false_eq_true, if_false,
        PyVal.get, hc, pathOf_str_ne s hs, hex, hnd, hcd, hctr, hgetD, he,
        encodingName, hv, writeVal]
    rw [hcomp]
    exact ⟨fsGet_fsSet _ s _ hdot, rfl⟩

/-- C6 witness: editing a missing path errors; editing a directory
errors; editing the existing file `f` with value `new` replaces its
content and succeeds. -/
theorem C6_edit_semantics_witness :
    (task_file_edit
        (.dict [("id", .str "2"), ("action", .str "file/edit"),
          ("path", .str "missing")]) [] =
      ([], make_task_error
        (.dict [("id", .str "2"), ("action", .str "file/edit"),
          ("path", .str "missing")]) "argument"
        ("A file or directory at path `" ++ "missing" ++
          "` does not exist"))) ∧
    (task_file_edit
        (.dict [("id", .str "2"), ("action", .str "file/edit"),
          ("path", .str "dir")]) [("dir", .dir)] =
      ([("dir", .dir)], make_task_error
        (.dict [("id", .str "2"), ("action", .str "file/edit"),
          ("path", .str "dir")]) "argument"
        ("A directory at path `" ++ "dir" ++ "` already exists"))) ∧
    (fsGet (task_file_edit
        (.dict [("id", .str "2"), ("action", .str "file/edit"),
          ("path", .str "f"),
          ("content", .dict [("value", .str "new")])])
        [("f", .file "utf-8" "old")]).1 "f" =
      some (.file "utf-8" "new")) :=
  ⟨(C6_edit_semantics
      [("id", .str "2"), ("action", .str "file/edit"),
        ("path", .str "missing")] [] [] "missing" "" "utf-8" "" ""
      rfl (by decide)).1 rfl,
   (C6_edit_semantics
      [("id", .str "2"), ("action", .str "file/edit"), ("path", .str "dir")]
      [] [("dir", .dir)] "dir" "" "utf-8" "" "" rfl (by decide)).2.1 rfl,
   ((C6_edit_semantics
      [("id", .str "2"), ("action", .str "file/edit"), ("path", .str "f"),
        ("content", .dict [("value", .str "new")])]
      [("value", .str "new")] [("f", .file "utf-8" "old")] "f" "new"
      "utf-8" "utf-8" "old" rfl (by decide)).2.2.2
      rfl rfl (List.cons_ne_nil _ _) rfl rfl).1⟩

/-- C9: with a truthy dict `content` lacking a `value`, `file/create` at
a fresh path and `file/edit` on an existing file both first open the
target in write mode — creating it, or truncating it to empty — and then
raise `TypeError` writing the missing value, so no Result is returned
although the filesystem was already changed. -/
theorem C9_truthy_content_without_value (d cd : List (String × PyVal))
    (fs : FS) (s es fe fb : String)
    (hc : dictGet d "path" = .str s) (hs : s ≠ "")
    (hcd : dictGet d "content" = .dict cd) (hne : cd ≠ [])
    (hv : dictGet cd "value" = .none)
    (he : contentEncodingVal cd = .str es) :
    (fsExists fs s = false →
      task_file_create (.dict d) fs =
        (fsSet fs s (.file es ""), .error .typeError)) ∧
    (fsGet fs s = some (.file fe fb) →
      task_file_edit (.dict d) fs =
        (fsSet fs s (.file es ""), .error .typeError)) := by
  have htr := dict_truthy_of_get d "path" s hc
  have hctr : (PyVal.dict cd).truthy = true := by
    simp [PyVal.truthy, hne]
  have hgetD : (PyVal.dict cd).getD "encoding" (.str DEFAULT_ENCODING) =
      .ok (contentEncodingVal cd) := rfl
  constructor
  · intro hfresh
    unfold task_file_create
    simp only [htr, Bool.not_true, Bool.false_eq_true, if_false, PyVal.get,
      hc, pathOf_str_ne s hs, hfresh, hcd, hctr, hgetD, he, encodingName,
      hv, writeVal]
  · intro hfile
    have hex : fsExists fs s = true := by
      simp [fsExists, hfile]
    have hnd : fsIsDir fs s = false := by
      simp [fsIsDir, hfile]
    unfold task_file_edit
    simp only [htr, Bool.not_true, Bool.false_eq_true, if_false, PyVal.get,
      hc, pathOf_str_ne s hs, hex, hnd, hcd, hctr, hgetD, he, encodingName,
      hv, writeVal]

/-- C9 witness: creating `p` and editing the existing file `f`, each with
content `encoding utf-8` but no `value`, leave an empty file behind and
raise `TypeError`. -/
theorem C9_truthy_content_without_value_witness :
    (task_file_create
        (.dict [("id", .str "1"), ("path", .str "p"),
          ("content", .dict [("encoding", .str "utf-8")])]) [] =
      (fsSet [] "p" (.file "utf-8" ""), .error .typeError)) ∧
    (task_file_edit
        (.dict [("id", .str "1"), ("path", .str "f"),
          ("content", .dict [("encoding", .str "utf-8")])])
        [("f", .file "utf-8" "old")] =
      (fsSet [("f", .file "utf-8" "old")] "f" (.file "utf-8" ""),
        .error .typeError)) :=
  ⟨(C9_truthy_content_without_value
      [("id", .str "1"), ("path", .str "p"),
        ("content", .dict [("encoding", .str "utf-8")])]
      [("encoding", .str "utf-8")] [] "p" "utf-8" "" ""
      rfl (by decide) rfl (List.cons_ne_nil _ _) rfl rfl).1 rfl,
   (C9_truthy_content_without_value
      [("id", .str "1"), ("path", .str "f"),
        ("content", .dict [("encoding", .str "utf-8")])]
      [("encoding", .str "utf-8")] [("f", .file "utf-8" "old")] "f"
      "utf-8" "utf-8" "old"
      rfl (by decide) rfl (List.cons_ne_nil _ _) rfl rfl).2 rfl⟩

end Task
